import Mathlib

/-!
Shallow embedding of the UTI prediction inference pipeline
(`notebooks/3_model_inference_input.ipynb`).

The notebook implements:
* `preprocess_data` — the feature contract: validates that the 18 required
  features are present, reorders them into the canonical training order,
  coerces the 13 binary categorical features to integers, maps gender via
  the fixed table {M ↦ 0, F ↦ 1} (values outside the table become a missing
  value, mirroring pandas `Series.map`), and standardizes the 4 numeric
  features with the pre-fitted scaler.
* `get_prediction` — the ensemble scorer: per-model thresholded decisions,
  ensemble probability (arithmetic mean), agreement flag, and the
  asymmetric confidence score.
* `interpret_prediction` — the interpreter: final 0.5-cut prediction,
  confidence tiers at 0.8/0.6, and the recommendation decision table.
  The source iterates over the rows of its input but returns from inside
  the loop body, so only the first row is ever interpreted.

Probabilities and feature values are modelled as rationals; the trained
classifiers themselves are opaque external artifacts, so the ensemble
scorer takes the two model probabilities as inputs.
-/

set_option autoImplicit false

namespace UTI

/-- A raw cell of an input record: the notebook's records hold numbers
(ints/floats) or strings (the gender column). -/
inductive RawValue
  | num (q : ℚ)
  | str (s : String)
deriving DecidableEq

/-- The exact feature order used in training (`feature_order` in
`preprocess_data`): 4 numeric features first, then the categorical ones. -/
def feature_order : List String :=
  ["age", "urine_ph", "wbc", "rbc",
   "frequent_urination", "painful_urination", "lower_abdominal_pain",
   "cloudy_urine", "blood_in_urine", "fever", "urgent_urination",
   "foul_smelling_urine", "nitrites", "leukocyte_esterase",
   "gender", "diabetes", "hypertension", "bacteria"]

/-- The 4 numeric features scaled by the fitted scaler. -/
def numerical_features : List String := ["age", "urine_ph", "wbc", "rbc"]

/-- The 13 binary categorical features coerced with `astype(int)`. -/
def categorical_features_binary : List String :=
  ["frequent_urination", "painful_urination", "lower_abdominal_pain",
   "cloudy_urine", "blood_in_urine", "fever", "urgent_urination",
   "foul_smelling_urine", "nitrites", "leukocyte_esterase",
   "diabetes", "hypertension", "bacteria"]

/-- Column access in a record, keyed by column name, mirroring
`DataFrame` column lookup (column names are unique in a `DataFrame`). -/
def colLookup (data : List (String × RawValue)) (f : String) : Option RawValue :=
  match data with
  | [] => none
  | (k, v) :: rest => if k = f then some v else colLookup rest f

/-- Python `int(x)` on a float truncates toward zero; this is the
`astype(int)` semantics applied to the binary categorical columns. -/
def truncInt (q : ℚ) : ℤ :=
  if 0 ≤ q then ⌊q⌋ else ⌈q⌉

/-- The pre-fitted standard scaler: a fixed mean and standard deviation per
numeric feature, supplied externally at load time and never refitted. -/
structure Scaler where
  mean : String → ℚ
  std : String → ℚ

/-- Failures of `preprocess_data`. The notebook raises `ValueError` with a
message naming the missing features; the payload here carries those names.
`typeError` stands for the `ValueError`/`TypeError` pandas raises when a
column cannot be cast (e.g. `astype(int)` on a non-numeric string). -/
inductive PreprocessError
  | missingFeatures (fs : List String)
  | typeError (f : String)
deriving DecidableEq

/-- Encoding of a single cell, by feature name, combining the three
per-column transforms of `preprocess_data` (they act on disjoint columns,
so per-cell application is equivalent to the source's column-wise passes):
* numeric features: standard score `(x - mean) / std`;
* gender: the fixed map {M ↦ 0, F ↦ 1}; any other value becomes `none`
  (pandas `map` yields NaN for keys outside the dictionary);
* binary categorical features: truncation to an integer (`astype(int)`);
  integer-parsable strings cast like pandas, others raise. -/
def encodeFeature (scaler : Scaler) (f : String) (v : RawValue) :
    Except PreprocessError (Option ℚ) :=
  if f ∈ numerical_features then
    match v with
    | .num q => .ok (some ((q - scaler.mean f) / scaler.std f))
    | .str _ => .error (.typeError f)
  else if f = "gender" then
    match v with
    | .str "M" => .ok (some 0)
    | .str "F" => .ok (some 1)
    | _ => .ok none
  else
    match v with
    | .num q => .ok (some ((truncInt q : ℤ) : ℚ))
    | .str s =>
      match s.toInt? with
      | some n => .ok (some (n : ℚ))
      | none => .error (.typeError f)

/-- Encoding of the column named `f` of a record. The `none` branch is
unreachable when `preprocess_data` calls this, because the missing-feature
check has already passed. -/
def encodeAt (data : List (String × RawValue)) (scaler : Scaler) (f : String) :
    Except PreprocessError (Option ℚ) :=
  match colLookup data f with
  | some v => encodeFeature scaler f v
  | none => .error (.missingFeatures [f])

/-- Encoding of the listed columns in order; the first failing column's
error propagates (pandas raises on the first failing column-wise pass). -/
def encodeColumns (data : List (String × RawValue)) (scaler : Scaler) :
    List String → Except PreprocessError (List (Option ℚ))
  | [] => .ok []
  | f :: fs =>
    match encodeAt data scaler f with
    | .error e => .error e
    | .ok w =>
      match encodeColumns data scaler fs with
      | .error e => .error e
      | .ok ws => .ok (w :: ws)

/-- `preprocess_data(data, scaler)`: first the missing-feature validation
(`set(feature_order) - set(columns)`, raising before any transform), then
selection/reordering into `feature_order` and the per-column encodings.
A cell is `none` when its encoded value is NaN (unrecognized gender). -/
def preprocess_data (data : List (String × RawValue)) (scaler : Scaler) :
    Except PreprocessError (List (Option ℚ)) :=
  let missing := feature_order.filter (fun f => (colLookup data f).isNone)
  if missing.isEmpty then
    encodeColumns data scaler feature_order
  else
    .error (.missingFeatures missing)

/-- The optimal decision thresholds loaded from
`optimal_thresholds.joblib`. -/
structure Thresholds where
  rf_threshold : ℚ
  xgb_threshold : ℚ

/-- One row of the results frame built by `get_prediction`. -/
structure PredictionResult where
  rf_prediction : ℕ
  rf_probability : ℚ
  xgb_prediction : ℕ
  xgb_probability : ℚ
  ensemble_probability : ℚ
  confidence_score : ℚ
  models_agree : Bool
deriving DecidableEq

/-- The ensemble computation of `get_prediction` for one record, taking the
two models' positive-class probabilities as inputs (the classifiers are
opaque pre-trained artifacts). The numpy code applies exactly these
operations elementwise:
* `rf_pred = (rf_proba >= rf_threshold).astype(int)`, same for xgb;
* `ensemble_proba = (rf_proba + xgb_proba) / 2`;
* `prediction_agreement = (rf_pred == xgb_pred)`;
* `confidence_score = np.where(agreement, max(p, 1-p), min(p, 1-p))`. -/
def get_prediction (rf_proba xgb_proba : ℚ) (th : Thresholds) : PredictionResult :=
  let rf_pred : ℕ := if th.rf_threshold ≤ rf_proba then 1 else 0
  let xgb_pred : ℕ := if th.xgb_threshold ≤ xgb_proba then 1 else 0
  let ensemble_proba : ℚ := (rf_proba + xgb_proba) / 2
  let prediction_agreement : Bool := rf_pred == xgb_pred
  let confidence_score : ℚ :=
    if prediction_agreement then max ensemble_proba (1 - ensemble_proba)
    else min ensemble_proba (1 - ensemble_proba)
  { rf_prediction := rf_pred
    rf_probability := rf_proba
    xgb_prediction := xgb_pred
    xgb_probability := xgb_proba
    ensemble_probability := ensemble_proba
    confidence_score := confidence_score
    models_agree := prediction_agreement }

/-- The three confidence tiers of the interpreter. -/
inductive ConfidenceLevel
  | high
  | medium
  | low
deriving DecidableEq

/-- The dictionary built by `interpret_prediction` for one row. -/
structure Interpretation where
  final_prediction : ℕ
  confidence_level : ConfidenceLevel
  model_agreement : String
  probability : ℚ
  recommendation : String
deriving DecidableEq

/-- The body of `interpret_prediction`'s loop for a single row:
final prediction at the fixed 0.5 cut, tiers at 0.8 and 0.6, and the
recommendation decision table. -/
def interpret_row (row : PredictionResult) : Interpretation :=
  let final_prediction : ℕ :=
    if (1 : ℚ)/2 ≤ row.ensemble_probability then 1 else 0
  let confidence_level : ConfidenceLevel :=
    if (4 : ℚ)/5 ≤ row.confidence_score then .high
    else if (3 : ℚ)/5 ≤ row.confidence_score then .medium
    else .low
  let recommendation : String :=
    if final_prediction = 1 then
      match confidence_level with
      | .high => "High probability of UTI. Recommend immediate clinical evaluation."
      | .medium => "Moderate probability of UTI. Recommend clinical evaluation within 24 hours."
      | .low => "Possible UTI. Monitor symptoms and recommend clinical evaluation if symptoms persist."
    else
      match confidence_level with
      | .high => "Low probability of UTI. Monitor for symptom changes."
      | _ => "UTI unlikely but cannot be ruled out. Monitor symptoms and seek evaluation if they worsen."
  { final_prediction := final_prediction
    confidence_level := confidence_level
    model_agreement := if row.models_agree then "agreed" else "disagreed"
    probability := row.ensemble_probability
    recommendation := recommendation }

/-- `interpret_prediction(prediction_results)`: the source iterates over the
rows with `for idx, row in prediction_results.iterrows()` but the `return`
statement sits inside the loop body, so the first row's interpretation is
returned immediately; an empty frame falls off the loop and returns `None`. -/
def interpret_prediction (rows : List PredictionResult) : Option Interpretation :=
  match rows with
  | [] => none
  | row :: _ => some (interpret_row row)

/-! ## Helper lemmas about the ensemble scorer -/

theorem get_prediction_rf_prediction (p q : ℚ) (th : Thresholds) :
    (get_prediction p q th).rf_prediction = if th.rf_threshold ≤ p then 1 else 0 := rfl

theorem get_prediction_xgb_prediction (p q : ℚ) (th : Thresholds) :
    (get_prediction p q th).xgb_prediction = if th.xgb_threshold ≤ q then 1 else 0 := rfl

theorem get_prediction_ensemble (p q : ℚ) (th : Thresholds) :
    (get_prediction p q th).ensemble_probability = (p + q) / 2 := rfl

theorem get_prediction_agree (p q : ℚ) (th : Thresholds) :
    (get_prediction p q th).models_agree =
      ((get_prediction p q th).rf_prediction == (get_prediction p q th).xgb_prediction) := rfl

theorem get_prediction_confidence (p q : ℚ) (th : Thresholds) :
    (get_prediction p q th).confidence_score =
      if (get_prediction p q th).models_agree then
        max ((p + q) / 2) (1 - (p + q) / 2)
      else
        min ((p + q) / 2) (1 - (p + q) / 2) := rfl

theorem min_self_one_sub_le_half (e : ℚ) : min e (1 - e) ≤ 1/2 := by
  rcases le_total e (1 - e) with h | h
  · have := min_le_left e (1 - e)
    linarith
  · have := min_le_right e (1 - e)
    linarith

theorem half_le_max_self_one_sub (e : ℚ) : 1/2 ≤ max e (1 - e) := by
  rcases le_total e (1 - e) with h | h
  · have := le_max_right e (1 - e)
    linarith
  · have := le_max_left e (1 - e)
    linarith

theorem half_lt_max_self_one_sub (e : ℚ) (h : e ≠ 1/2) : 1/2 < max e (1 - e) := by
  rcases lt_trichotomy e (1/2) with h1 | h1 | h1
  · have := le_max_right e (1 - e)
    linarith
  · exact absurd h1 h
  · have := le_max_left e (1 - e)
    linarith

/-! ## Claim theorems about the ensemble scorer -/

/-- C6: for every pair of model probabilities in [0,1] × [0,1] and any
thresholds, the ensemble probability computed by `get_prediction` is the
arithmetic mean `(rf_proba + xgb_proba) / 2` of the two probabilities. -/
theorem ensemble_probability_is_mean (p q : ℚ) (hp0 : 0 ≤ p) (hp1 : p ≤ 1)
    (hq0 : 0 ≤ q) (hq1 : q ≤ 1) (th : Thresholds) :
    (get_prediction p q th).ensemble_probability = (p + q) / 2 := rfl

/-- Witness for `ensemble_probability_is_mean` at p = 9/10, q = 7/10. -/
theorem ensemble_probability_is_mean_witness :
    (0:ℚ) ≤ 9/10 ∧ (9:ℚ)/10 ≤ 1 ∧ (0:ℚ) ≤ 7/10 ∧ (7:ℚ)/10 ≤ 1 ∧
    (get_prediction (9/10) (7/10) ⟨1/2, 1/2⟩).ensemble_probability = (9/10 + 7/10) / 2 :=
  ⟨by norm_num, by norm_num, by norm_num, by norm_num,
    ensemble_probability_is_mean (9/10) (7/10) (by norm_num) (by norm_num)
      (by norm_num) (by norm_num) ⟨1/2, 1/2⟩⟩

/-- C1: for every pair of model probabilities in [0,1] × [0,1] with their
thresholds, the confidence score equals
`max(ensemble_probability, 1 - ensemble_probability)` when the two
thresholded decisions are equal and
`min(ensemble_probability, 1 - ensemble_probability)` when they differ. -/
theorem confidence_score_rule (p q : ℚ) (hp0 : 0 ≤ p) (hp1 : p ≤ 1)
    (hq0 : 0 ≤ q) (hq1 : q ≤ 1) (th : Thresholds) :
    ((get_prediction p q th).rf_prediction = (get_prediction p q th).xgb_prediction →
      (get_prediction p q th).confidence_score =
        max ((get_prediction p q th).ensemble_probability)
          (1 - (get_prediction p q th).ensemble_probability)) ∧
    ((get_prediction p q th).rf_prediction ≠ (get_prediction p q th).xgb_prediction →
      (get_prediction p q th).confidence_score =
        min ((get_prediction p q th).ensemble_probability)
          (1 - (get_prediction p q th).ensemble_probability)) := by
  rw [get_prediction_confidence, get_prediction_agree, get_prediction_ensemble]
  by_cases h :
      (get_prediction p q th).rf_prediction = (get_prediction p q th).xgb_prediction
  · constructor
    · intro _
      simp [h]
    · intro hne
      exact absurd h hne
  · constructor
    · intro heq
      exact absurd heq h
    · intro _
      simp [h]

/-- Witness for `confidence_score_rule` at p = 7/10, q = 3/10 with
thresholds 3/5 and 1/2 (a disagreeing pair). -/
theorem confidence_score_rule_witness :
    (0:ℚ) ≤ 7/10 ∧ (7:ℚ)/10 ≤ 1 ∧ (0:ℚ) ≤ 3/10 ∧ (3:ℚ)/10 ≤ 1 ∧
    ((get_prediction (7/10) (3/10) ⟨3/5, 1/2⟩).rf_prediction ≠
        (get_prediction (7/10) (3/10) ⟨3/5, 1/2⟩).xgb_prediction →
      (get_prediction (7/10) (3/10) ⟨3/5, 1/2⟩).confidence_score =
        min ((get_prediction (7/10) (3/10) ⟨3/5, 1/2⟩).ensemble_probability)
          (1 - (get_prediction (7/10) (3/10) ⟨3/5, 1/2⟩).ensemble_probability)) :=
  ⟨by norm_num, by norm_num, by norm_num, by norm_num,
    (confidence_score_rule (7/10) (3/10) (by norm_num) (by norm_num)
      (by norm_num) (by norm_num) ⟨3/5, 1/2⟩).2⟩

/-- C5: for all probability pairs in [0,1] × [0,1], the confidence score is
at most 1/2 when the agreement flag is false, at least 1/2 when it is true,
and strictly above 1/2 when it is true and the ensemble probability is not
1/2. -/
theorem confidence_agreement_bounds (p q : ℚ) (hp0 : 0 ≤ p) (hp1 : p ≤ 1)
    (hq0 : 0 ≤ q) (hq1 : q ≤ 1) (th : Thresholds) :
    ((get_prediction p q th).models_agree = false →
      (get_prediction p q th).confidence_score ≤ 1/2) ∧
    ((get_prediction p q th).models_agree = true →
      1/2 ≤ (get_prediction p q th).confidence_score) ∧
    ((get_prediction p q th).models_agree = true →
      (get_prediction p q th).ensemble_probability ≠ 1/2 →
      1/2 < (get_prediction p q th).confidence_score) := by
  refine ⟨?_, ?_, ?_⟩
  · intro h
    rw [get_prediction_confidence, h]
    simpa using min_self_one_sub_le_half ((p + q) / 2)
  · intro h
    rw [get_prediction_confidence, h]
    simpa using half_le_max_self_one_sub ((p + q) / 2)
  · intro h hne
    rw [get_prediction_ensemble] at hne
    rw [get_prediction_confidence, h]
    simpa using half_lt_max_self_one_sub ((p + q) / 2) hne

/-- Witness for `confidence_agreement_bounds` at p = q = 9/10 with both
thresholds 1/2 (an agreeing pair with ensemble probability 9/10). -/
theorem confidence_agreement_bounds_witness :
    (0:ℚ) ≤ 9/10 ∧ (9:ℚ)/10 ≤ 1 ∧
    ((get_prediction (9/10) (9/10) ⟨1/2, 1/2⟩).models_agree = true →
      (get_prediction (9/10) (9/10) ⟨1/2, 1/2⟩).ensemble_probability ≠ 1/2 →
      1/2 < (get_prediction (9/10) (9/10) ⟨1/2, 1/2⟩).confidence_score) :=
  ⟨by norm_num, by norm_num,
    (confidence_agreement_bounds (9/10) (9/10) (by norm_num) (by norm_num)
      (by norm_num) (by norm_num) ⟨1/2, 1/2⟩).2.2⟩

/-! ## Claim theorems about the interpreter -/

/-- C7: for every prediction row, the interpreter's final prediction is 1
exactly when the ensemble probability is at least 1/2 (no model threshold
is consulted), and the confidence tier is high exactly when the confidence
score is at least 4/5, medium exactly when it is in [3/5, 4/5), and low
exactly when it is below 3/5 — each boundary inclusive at its lower end. -/
theorem interpreter_cutoffs (r : PredictionResult) :
    ((interpret_row r).final_prediction = 1 ↔ 1/2 ≤ r.ensemble_probability) ∧
    ((interpret_row r).final_prediction = 0 ↔ r.ensemble_probability < 1/2) ∧
    ((interpret_row r).confidence_level = ConfidenceLevel.high ↔ 4/5 ≤ r.confidence_score) ∧
    ((interpret_row r).confidence_level = ConfidenceLevel.medium ↔
      3/5 ≤ r.confidence_score ∧ r.confidence_score < 4/5) ∧
    ((interpret_row r).confidence_level = ConfidenceLevel.low ↔ r.confidence_score < 3/5) := by
  unfold interpret_row
  by_cases h1 : (4:ℚ)/5 ≤ r.confidence_score <;>
    by_cases h2 : (3:ℚ)/5 ≤ r.confidence_score <;>
      by_cases h3 : (1:ℚ)/2 ≤ r.ensemble_probability <;>
        simp [h1, h2, h3] <;> linarith

/-- C10: whenever the two models' thresholded decisions differ, the
interpreter assigns the low confidence tier: disagreement caps the
confidence score at 1/2, below the 3/5 medium cutoff. -/
theorem disagreement_low_tier (p q : ℚ) (th : Thresholds)
    (h : (get_prediction p q th).models_agree = false) :
    (interpret_row (get_prediction p q th)).confidence_level = ConfidenceLevel.low := by
  have hc : (get_prediction p q th).confidence_score ≤ 1/2 := by
    rw [get_prediction_confidence, h]
    simpa using min_self_one_sub_le_half ((p + q) / 2)
  unfold interpret_row
  have h1 : ¬ ((4:ℚ)/5 ≤ (get_prediction p q th).confidence_score) := by linarith
  have h2 : ¬ ((3:ℚ)/5 ≤ (get_prediction p q th).confidence_score) := by linarith
  simp [h1, h2]

/-- Witness for `disagreement_low_tier` at p = 7/10, q = 3/10 with
thresholds 3/5 and 1/2 (decisions 1 and 0). -/
theorem disagreement_low_tier_witness :
    (get_prediction (7/10) (3/10) ⟨3/5, 1/2⟩).models_agree = false ∧
    (interpret_row (get_prediction (7/10) (3/10) ⟨3/5, 1/2⟩)).confidence_level =
      ConfidenceLevel.low :=
  ⟨by simp [get_prediction]; norm_num,
    disagreement_low_tier (7/10) (3/10) ⟨3/5, 1/2⟩ (by simp [get_prediction]; norm_num)⟩

/-! ## Scenario 2 and batch interpretation -/

/-- The ensemble output for the spec's Scenario 2: rf probability 0.7 at
threshold 0.6, xgb probability 0.3 at threshold 0.5. -/
def scenario2 : PredictionResult := get_prediction (7/10) (3/10) ⟨3/5, 1/2⟩

/-- C2 (counterexample): at Scenario 2's input the confidence score is 1/2,
which is below the 3/5 medium cutoff, so the confidence tier is not medium
as the claim states. -/
theorem scenario2_tier_not_medium :
    (interpret_row scenario2).confidence_level ≠ ConfidenceLevel.medium := by
  norm_num [scenario2, get_prediction, interpret_row, min_def, max_def]
  simp

/-- C2 (amended): for rf_proba = 0.7 at threshold 0.6 and xgb_proba = 0.3
at threshold 0.5, the pipeline yields rf decision 1, xgb decision 0,
agreement false, ensemble probability 1/2, confidence score 1/2, final
prediction 1, confidence tier low, and the monitor-symptoms
recommendation. -/
theorem scenario2_pipeline :
    scenario2.rf_prediction = 1 ∧ scenario2.xgb_prediction = 0 ∧
    scenario2.models_agree = false ∧ scenario2.ensemble_probability = 1/2 ∧
    scenario2.confidence_score = 1/2 ∧
    interpret_prediction [scenario2] = some (interpret_row scenario2) ∧
    (interpret_row scenario2).final_prediction = 1 ∧
    (interpret_row scenario2).confidence_level = ConfidenceLevel.low ∧
    (interpret_row scenario2).recommendation =
      "Possible UTI. Monitor symptoms and recommend clinical evaluation if symptoms persist." := by
  norm_num [scenario2, get_prediction, interpret_prediction, interpret_row, min_def, max_def]

/-- C3 (code behavior): for every nonempty batch, `interpret_prediction`
returns the single interpretation of the first row — the `return` sits
inside the loop — so a batch of n ≥ 2 records never yields n
interpretations. -/
theorem interpret_prediction_first_only (r : PredictionResult)
    (rest : List PredictionResult) :
    interpret_prediction (r :: rest) = some (interpret_row r) := rfl

/-! ## Preprocessing: missing features and the gender table -/

/-- A trivial fitted scaler (every mean 0, every standard deviation 1),
used to evaluate the preprocessing pipeline at concrete records. -/
def scaler0 : Scaler := { mean := fun _ => 0, std := fun _ => 1 }

/-- A complete record whose gender value "X" is outside the fixed
{M ↦ 0, F ↦ 1} table. -/
def genderXRecord : List (String × RawValue) :=
  [("age", .num 30), ("urine_ph", .num 6), ("wbc", .num 10), ("rbc", .num 2),
   ("frequent_urination", .num 1), ("painful_urination", .num 0),
   ("lower_abdominal_pain", .num 1), ("cloudy_urine", .num 0),
   ("blood_in_urine", .num 0), ("fever", .num 1), ("urgent_urination", .num 0),
   ("foul_smelling_urine", .num 0), ("nitrites", .num 1),
   ("leukocyte_esterase", .num 1), ("gender", .str "X"), ("diabetes", .num 0),
   ("hypertension", .num 0), ("bacteria", .num 1)]

/-- C4 (code behavior): preprocessing a complete record whose gender is "X"
does not raise any error; it silently encodes the record, with the gender
cell (position 14 of the canonical order) mapped to a missing value (NaN),
exactly as pandas `Series.map` does for keys outside the dictionary. -/
theorem gender_x_silently_encoded :
    preprocess_data genderXRecord scaler0 =
      .ok [some 30, some 6, some 10, some 2, some 1, some 0, some 1, some 0,
           some 0, some 1, some 0, some 0, some 1, some 1, none, some 0,
           some 0, some 1] := by
  simp [preprocess_data, encodeColumns, encodeAt, encodeFeature, colLookup,
    feature_order, numerical_features, truncInt, genderXRecord, scaler0]

/-- C8: whenever at least one required feature is absent from the record,
`preprocess_data` fails with the missing-features error, the error names a
nonempty list holding exactly the required features absent from the record,
and no (partial) encoded vector is returned. -/
theorem missing_features_error (data : List (String × RawValue)) (scaler : Scaler)
    (h : ∃ f ∈ feature_order, colLookup data f = none) :
    ∃ fs, preprocess_data data scaler = .error (.missingFeatures fs) ∧
      fs ≠ [] ∧ ∀ f, f ∈ fs ↔ f ∈ feature_order ∧ colLookup data f = none := by
  unfold preprocess_data
  obtain ⟨f, hf, hnone⟩ := h
  have hmem : f ∈ feature_order.filter (fun g => (colLookup data g).isNone) :=
    List.mem_filter.mpr ⟨hf, by simp [hnone]⟩
  have hne : ¬ ((feature_order.filter (fun g => (colLookup data g).isNone)).isEmpty = true) := by
    intro hemp
    rw [List.isEmpty_iff] at hemp
    rw [hemp] at hmem
    exact absurd hmem (List.not_mem_nil f)
  refine ⟨feature_order.filter (fun g => (colLookup data g).isNone), ?_, ?_, ?_⟩
  · simp only [if_neg hne]
  · exact List.ne_nil_of_mem hmem
  · intro g
    rw [List.mem_filter]
    simp [Option.isNone_iff_eq_none]

/-- A record with 17 of the 18 required features: "wbc" is absent. -/
def missingWbcRecord : List (String × RawValue) :=
  [("age", .num 30), ("urine_ph", .num 6), ("rbc", .num 2),
   ("frequent_urination", .num 1), ("painful_urination", .num 0),
   ("lower_abdominal_pain", .num 1), ("cloudy_urine", .num 0),
   ("blood_in_urine", .num 0), ("fever", .num 1), ("urgent_urination", .num 0),
   ("foul_smelling_urine", .num 0), ("nitrites", .num 1),
   ("leukocyte_esterase", .num 1), ("gender", .str "F"), ("diabetes", .num 0),
   ("hypertension", .num 0), ("bacteria", .num 1)]

/-- Witness for `missing_features_error` at a record missing "wbc". -/
theorem missing_features_error_witness :
    (∃ f ∈ feature_order, colLookup missingWbcRecord f = none) ∧
    ∃ fs, preprocess_data missingWbcRecord scaler0 = .error (.missingFeatures fs) ∧
      fs ≠ [] ∧ ∀ f, f ∈ fs ↔ f ∈ feature_order ∧ colLookup missingWbcRecord f = none :=
  ⟨⟨"wbc", by decide, by decide⟩,
    missing_features_error missingWbcRecord scaler0 ⟨"wbc", by decide, by decide⟩⟩

/-! ## The feature contract on valid records -/

theorem colLookup_nil (k : String) : colLookup [] k = none := rfl

theorem colLookup_cons (a : String) (v : RawValue) (l : List (String × RawValue)) (k : String) :
    colLookup ((a, v) :: l) k = if a = k then some v else colLookup l k := rfl

/-- A cell value the feature contract can encode without failing and
without producing a missing value: numeric features must be numbers,
gender must be "M" or "F", and the binary categorical features must be
numbers or integer-parsable strings. -/
def cellOk (f : String) (v : RawValue) : Bool :=
  if f ∈ numerical_features then
    match v with
    | .num _ => true
    | .str _ => false
  else if f = "gender" then
    match v with
    | .str s => s == "M" || s == "F"
    | .num _ => false
  else
    match v with
    | .num _ => true
    | .str s => (s.toInt?).isSome

/-- The column named `f` is present and its value is encodable. -/
def columnOk (data : List (String × RawValue)) (f : String) : Bool :=
  match colLookup data f with
  | some v => cellOk f v
  | none => false

/-- A valid record: unique column names (as in a `DataFrame`) and all 18
required features present with encodable values. -/
def validRecord (data : List (String × RawValue)) : Bool :=
  decide ((data.map Prod.fst).Nodup) && feature_order.all (columnOk data)

theorem encodeFeature_ok_of_cellOk (scaler : Scaler) (f : String) (v : RawValue)
    (h : cellOk f v = true) : ∃ w, encodeFeature scaler f v = .ok w := by
  unfold cellOk at h
  unfold encodeFeature
  by_cases h1 : f ∈ numerical_features
  · rw [if_pos h1] at h ⊢
    cases v with
    | num q => exact ⟨some ((q - scaler.mean f) / scaler.std f), rfl⟩
    | str s => simp at h
  · rw [if_neg h1] at h ⊢
    by_cases h2 : f = "gender"
    · rw [if_pos h2] at h ⊢
      cases v with
      | num q => simp at h
      | str s =>
        simp at h
        rcases h with h | h <;> subst h
        · exact ⟨some 0, rfl⟩
        · exact ⟨some 1, rfl⟩
    · rw [if_neg h2] at h ⊢
      cases v with
      | num q => exact ⟨some ((truncInt q : ℤ) : ℚ), rfl⟩
      | str s =>
        cases hto : s.toInt? with
        | some n => exact ⟨some (n : ℚ), by simp [hto]⟩
        | none => simp [hto] at h

theorem encodeColumns_ok_of_all (data : List (String × RawValue)) (scaler : Scaler)
    (fs : List String) (h : ∀ f ∈ fs, ∃ w, encodeAt data scaler f = .ok w) :
    ∃ out, encodeColumns data scaler fs = .ok out ∧ out.length = fs.length ∧
      ∀ i : ℕ, ∀ hi : i < fs.length, ∀ ho : i < out.length,
        encodeAt data scaler (fs.get ⟨i, hi⟩) = .ok (out.get ⟨i, ho⟩) := by
  induction fs with
  | nil =>
    exact ⟨[], rfl, rfl, fun i hi _ => absurd hi (by simp)⟩
  | cons f fs ih =>
    obtain ⟨w, hw⟩ := h f (List.mem_cons_self f fs)
    obtain ⟨out, hout, hlen, hidx⟩ := ih (fun g hg => h g (List.mem_cons_of_mem f hg))
    refine ⟨w :: out, ?_, by simp [hlen], ?_⟩
    · unfold encodeColumns
      rw [hw, hout]
    · intro i hi ho
      cases i with
      | zero => exact hw
      | succ n => exact hidx n (Nat.lt_of_succ_lt_succ hi) (Nat.lt_of_succ_lt_succ ho)

/-- Column lookup only depends on the set of (name, value) pairs when the
column names are unique: permuting the columns changes no lookup. -/
theorem colLookup_perm {l l' : List (String × RawValue)} (hp : l.Perm l') :
    (l.map Prod.fst).Nodup → ∀ k, colLookup l k = colLookup l' k := by
  induction hp with
  | nil => exact fun _ _ => rfl
  | cons x hp ih =>
    intro nd k
    obtain ⟨a, v⟩ := x
    rw [List.map_cons, List.nodup_cons] at nd
    rw [colLookup_cons, colLookup_cons]
    by_cases hak : a = k
    · rw [if_pos hak, if_pos hak]
    · rw [if_neg hak, if_neg hak]
      exact ih nd.2 k
  | swap x y l =>
    intro nd k
    obtain ⟨a, va⟩ := x
    obtain ⟨b, vb⟩ := y
    rw [List.map_cons, List.map_cons, List.nodup_cons] at nd
    have hba : b ≠ a := by
      intro hba
      exact nd.1 (by rw [hba]; exact List.mem_cons_self a _)
    rw [colLookup_cons, colLookup_cons, colLookup_cons, colLookup_cons]
    by_cases hbk : b = k <;> by_cases hak : a = k
    · exact absurd (hak ▸ hbk : b = a) hba
    · rw [if_pos hbk, if_neg hak, if_pos hbk]
    · rw [if_neg hbk, if_pos hak, if_pos hak]
    · rw [if_neg hbk, if_neg hak, if_neg hak, if_neg hbk]
  | trans hp1 hp2 ih1 ih2 =>
    intro nd k
    rw [ih1 nd k]
    exact ih2 ((hp1.map Prod.fst).nodup nd) k

theorem encodeColumns_congr (data data' : List (String × RawValue)) (scaler : Scaler)
    (h : ∀ f, colLookup data f = colLookup data' f) (fs : List String) :
    encodeColumns data scaler fs = encodeColumns data' scaler fs := by
  induction fs with
  | nil => rfl
  | cons f fs ih =>
    unfold encodeColumns
    have he : encodeAt data scaler f = encodeAt data' scaler f := by
      unfold encodeAt
      rw [h f]
    rw [he, ih]

/-- C9: for every valid record (unique column names, all 18 recognized
features present with encodable values), preprocessing succeeds with a
vector of exactly 18 values whose i-th entry is the encoding of the i-th
feature of the canonical order, and any permutation of the record's
columns yields the identical output vector. -/
theorem feature_contract_deterministic (data data' : List (String × RawValue))
    (scaler : Scaler) (hv : validRecord data = true) (hperm : data.Perm data') :
    ∃ out, preprocess_data data scaler = .ok out ∧ out.length = 18 ∧
      preprocess_data data' scaler = .ok out ∧
      ∀ i : ℕ, ∀ hi : i < feature_order.length, ∀ ho : i < out.length,
        encodeAt data scaler (feature_order.get ⟨i, hi⟩) = .ok (out.get ⟨i, ho⟩) := by
  unfold validRecord at hv
  rw [Bool.and_eq_true, decide_eq_true_iff, List.all_eq_true] at hv
  obtain ⟨hnd, hall⟩ := hv
  have henc : ∀ f ∈ feature_order, ∃ w, encodeAt data scaler f = .ok w := by
    intro f hf
    have hco := hall f hf
    unfold columnOk at hco
    cases hc : colLookup data f with
    | none => rw [hc] at hco; simp at hco
    | some v =>
      rw [hc] at hco
      simp only [] at hco
      obtain ⟨w, hw⟩ := encodeFeature_ok_of_cellOk scaler f v hco
      refine ⟨w, ?_⟩
      unfold encodeAt
      rw [hc]
      simpa using hw
  have hlook : ∀ f ∈ feature_order, (colLookup data f).isNone = false := by
    intro f hf
    have hco := hall f hf
    unfold columnOk at hco
    cases hc : colLookup data f with
    | none => rw [hc] at hco; simp at hco
    | some v => simp
  have hfilter : feature_order.filter (fun g => (colLookup data g).isNone) = [] := by
    rw [List.filter_eq_nil_iff]
    intro f hf
    simp [hlook f hf]
  have hlookeq : ∀ k, colLookup data k = colLookup data' k := colLookup_perm hperm hnd
  have hfilter' : feature_order.filter (fun g => (colLookup data' g).isNone) = [] := by
    simp only [← hlookeq]
    exact hfilter
  obtain ⟨out, hout, hlen, hidx⟩ := encodeColumns_ok_of_all data scaler feature_order henc
  refine ⟨out, ?_, by rw [hlen]; rfl, ?_, hidx⟩
  · unfold preprocess_data
    rw [hfilter]
    simpa using hout
  · unfold preprocess_data
    rw [hfilter']
    have hcongr : encodeColumns data' scaler feature_order = .ok out := by
      rw [← encodeColumns_congr data data' scaler hlookeq feature_order]
      exact hout
    simpa using hcongr

/-- A complete, valid record (gender "F", all features encodable). -/
def validSampleRecord : List (String × RawValue) :=
  [("age", .num 30), ("urine_ph", .num 6), ("wbc", .num 10), ("rbc", .num 2),
   ("frequent_urination", .num 1), ("painful_urination", .num 0),
   ("lower_abdominal_pain", .num 1), ("cloudy_urine", .num 0),
   ("blood_in_urine", .num 0), ("fever", .num 1), ("urgent_urination", .num 0),
   ("foul_smelling_urine", .num 0), ("nitrites", .num 1),
   ("leukocyte_esterase", .num 1), ("gender", .str "F"), ("diabetes", .num 0),
   ("hypertension", .num 0), ("bacteria", .num 1)]

/-- Witness for `feature_contract_deterministic` at a concrete valid record
and its reversal. -/
theorem feature_contract_deterministic_witness :
    validRecord validSampleRecord = true ∧
    ∃ out, preprocess_data validSampleRecord scaler0 = .ok out ∧ out.length = 18 ∧
      preprocess_data validSampleRecord.reverse scaler0 = .ok out ∧
      ∀ i : ℕ, ∀ hi : i < feature_order.length, ∀ ho : i < out.length,
        encodeAt validSampleRecord scaler0 (feature_order.get ⟨i, hi⟩) =
          .ok (out.get ⟨i, ho⟩) :=
  ⟨by decide,
    feature_contract_deterministic validSampleRecord validSampleRecord.reverse scaler0
      (by decide) (List.reverse_perm validSampleRecord).symm⟩

end UTI
